import Mathlib

/-!
Shallow embedding of the session / connection-lifecycle engine of the
`metor` repository (`src/metor/core.py`, class `ChatManager`).

The manager's mutable state is modelled by the structure `ChatManager`;
each operation of the class becomes a pure function from that state (plus
explicit parameters for the outcome of every external I/O action: dial
results, socket reads, write success) to the new state together with a
list of observable effects `Eff` (stream writes, stream closes, console
messages, event-log records, receive-loop starts).

For the concurrency analysis, a small interleaving semantics `sysStep` /
`sysRun` splits `outgoing_connect` and `_handle_incoming_target` at the
code's lock boundaries: every lock-protected block is one atomic step and
every unlocked I/O action is its own step.
-/

/-- Observable side effects of the manager's operations: a dial attempt, a
read attempt on a stream, data written to a stream, a stream close, a
console message, an event-log record `(direction, status, identity)` (the
identity is an `Option`, since Python may pass `None`), and the start of a
receive loop thread. -/
inductive Eff
  | dial (addr : String)
  | recv (conn : Nat)
  | send (conn : Nat) (data : String)
  | close (conn : Nat)
  | print (msg : String)
  | logEvent (direction : String) (status : String) (identity : Option String)
  | startReceiver
  deriving Repr, DecidableEq

/-- Result of one `recv` call as the Python code observes it: `ok d` is a
nonempty chunk that decoded to the string `d`; `empty` is a zero-length
read (peer closed the stream); `err` is a timeout, socket error or decode
failure (the code wraps each handshake read in `try`/`except`). -/
inductive RecvResult
  | ok (d : String)
  | empty
  | err
  deriving Repr, DecidableEq

/-- The mutable state of `ChatManager` that the session logic touches
(`core.py` lines 287-293): the endpoint's published onion address, the
single active-connection slot (a stream id), the recorded remote identity,
and the `user_initiated_disconnect` flag. -/
structure ChatManager where
  own_onion : String
  active_connection : Option Nat
  active_remote_identity : Option String
  user_initiated_disconnect : Bool
  deriving Repr, DecidableEq

/-- `ChatManager.is_connected` (`core.py` 425-427). -/
def is_connected (st : ChatManager) : Bool :=
  st.active_connection.isSome

/-- `ChatManager.outgoing_connect` (`core.py` 429-459).  `dialResult` is the
outcome of `connect_via_tor` (`some conn` yields the new stream id), and
`sendOk` is the outcome of writing the `/init` handshake line. -/
def outgoing_connect (st : ChatManager) (onion : String) (anonymous : Bool)
    (dialResult : Option Nat) (sendOk : Bool) : ChatManager × List Eff :=
  if onion = st.own_onion then
    (st, [Eff.print "info> Error: Cannot connect to yourself."])
  else if st.active_connection.isSome then
    (st, [Eff.print "info> already connected"])
  else
    match dialResult with
    | none =>
      (st, [Eff.dial onion, Eff.print "info> rejected",
            Eff.logEvent "out" "rejected" (some onion)])
    | some conn =>
      let st1 : ChatManager :=
        { st with active_connection := some conn, user_initiated_disconnect := false }
      let identity_to_send := if anonymous then "anonymous" else st.own_onion
      let initLine := "/init " ++ identity_to_send ++ "\n"
      if sendOk then
        ({ st1 with active_remote_identity := some onion },
         [Eff.dial onion, Eff.send conn initLine,
          Eff.print ("info> connected with " ++ onion),
          Eff.logEvent "out" "connected" (some onion), Eff.startReceiver])
      else
        ({ st1 with active_connection := none },
         [Eff.dial onion, Eff.send conn initLine, Eff.print "info> rejected",
          Eff.logEvent "out" "rejected" (some onion)])

/-- `ChatManager.send_message` (`core.py` 417-423); `sendOk` is the outcome
of the `sendall` call. -/
def send_message (st : ChatManager) (msg : String) (sendOk : Bool) :
    ChatManager × List Eff :=
  match st.active_connection with
  | none => (st, [])
  | some conn =>
    if sendOk then (st, [Eff.send conn (msg ++ "\n")])
    else (st, [Eff.send conn (msg ++ "\n"), Eff.print "info> Error sending message."])

/-- Helper for Python's `str.strip`: drop leading whitespace characters
from a character list. -/
def drop_leading_ws : List Char → List Char
  | [] => []
  | c :: cs => if c.isWhitespace then drop_leading_ws cs else c :: cs

/-- Python's `str.strip()` (no argument): remove whitespace from both ends
of the string (the whitespace characters relevant to this code are space,
tab, carriage return and newline). -/
def py_strip (s : String) : String :=
  String.mk (List.reverse (drop_leading_ws (List.reverse (drop_leading_ws s.data))))

/-- Whether the first character list is an initial segment of the second. -/
def chars_startswith : List Char → List Char → Bool
  | [], _ => true
  | _ :: _, [] => false
  | p :: ps, c :: cs => p = c && chars_startswith ps cs

/-- Python's `s.startswith(pre)`. -/
def py_startswith (s pre : String) : Bool :=
  chars_startswith pre.data s.data

/-- Python's character slicing `s[n:]`. -/
def py_drop (n : Nat) (s : String) : String :=
  String.mk (s.data.drop n)

/-- Identity the busy-reject branch of `_handle_incoming_target` extracts
from its 5s read (`core.py` 322-327): the stripped chunk on a successful
nonempty read; `anonymous` on a zero-length read, a timeout, or a decode
failure (any exception in the inner `try`). -/
def claimed_identity : RecvResult → String
  | RecvResult.ok d => py_strip d
  | RecvResult.empty => "anonymous"
  | RecvResult.err => "anonymous"

/-- Remote identity the claim branch of `_handle_incoming_target` derives
from the handshake read (`core.py` 339-347): for a chunk starting with
`/init ` the code strips the chunk, drops its first 6 characters and strips
again; any other chunk, a zero-length read, a timeout or a decode failure
degrades to `anonymous`. -/
def inbound_identity : RecvResult → String
  | RecvResult.ok d =>
      if py_startswith d "/init " then py_strip (py_drop 6 (py_strip d))
      else "anonymous"
  | RecvResult.empty => "anonymous"
  | RecvResult.err => "anonymous"

/-- `ChatManager._handle_incoming_target` (`core.py` 314-353) handling a
fresh inbound stream `conn`.  `recv1` is the outcome of the single 5s
handshake read; `rejectSendOk` is the outcome of writing the rejection line
in the busy branch (a failure there aborts the surrounding `try` block, so
the console message and the event record are skipped, but the stream is
still closed — the `close` sits after the `except`). -/
def handle_incoming_target (st : ChatManager) (conn : Nat) (recv1 : RecvResult)
    (rejectSendOk : Bool) : ChatManager × List Eff :=
  if st.active_connection.isSome then
    if rejectSendOk then
      (st, [Eff.recv conn, Eff.send conn ("/reject " ++ st.own_onion ++ "\n"),
            Eff.print ("info> " ++ claimed_identity recv1 ++ " incoming - rejected"),
            Eff.logEvent "in" "rejected" (some (claimed_identity recv1)),
            Eff.close conn])
    else
      (st, [Eff.recv conn, Eff.send conn ("/reject " ++ st.own_onion ++ "\n"),
            Eff.close conn])
  else
    let st1 : ChatManager :=
      { st with active_connection := some conn, user_initiated_disconnect := false }
    let ri := inbound_identity recv1
    ({ st1 with active_remote_identity := some ri },
     [Eff.recv conn, Eff.print ("info> connected with " ++ ri),
      Eff.logEvent "in" "connected" (some ri), Eff.startReceiver])

/-- One item of the stream a receive loop reads (`core.py` 371-383):
`chunk d` is a nonempty read that decoded to `d`; `closed` a zero-length
read; `errRead` any exception raised while reading or decoding. -/
inductive ReadItem
  | chunk (d : String)
  | closed
  | errRead
  deriving Repr, DecidableEq

/-- Console effects the receive loop emits while reading (`core.py`
371-383): the loop ends at a zero-length read, a read error, or a stripped
line starting with `/disconnect `; stripped lines starting with `/reject `
are skipped; anything else is printed as a remote chat message. -/
def receiver_loop : List ReadItem → List Eff
  | [] => []
  | ReadItem.closed :: _ => []
  | ReadItem.errRead :: _ => []
  | ReadItem.chunk d :: rest =>
    let msg := py_strip d
    if py_startswith msg "/disconnect " then []
    else if py_startswith msg "/reject " then receiver_loop rest
    else Eff.print ("other> " ++ msg) :: receiver_loop rest

/-- Post-loop section of `_receiver_target` (`core.py` 384-390): capture
the recorded remote identity, clear the slot and the identity together
under the lock, then report the disconnect (console message plus
`(in, disconnected)` event) unless the disconnect was self-initiated. -/
def receiver_teardown (st : ChatManager) : ChatManager × List Eff :=
  let ri := st.active_remote_identity
  let st1 : ChatManager :=
    { st with active_connection := none, active_remote_identity := none }
  if st.user_initiated_disconnect then (st1, [])
  else (st1, [Eff.print "info> disconnected", Eff.logEvent "in" "disconnected" ri])

/-- `ChatManager._receiver_target` (`core.py` 366-390): returns immediately
when no connection is installed; otherwise runs the read loop over the
given stream items and then the teardown section. -/
def receiver_target (st : ChatManager) (items : List ReadItem) :
    ChatManager × List Eff :=
  match st.active_connection with
  | none => (st, [])
  | some _ =>
    let t := receiver_teardown st
    (t.1, receiver_loop items ++ t.2)

/-- Lock-protected section of `ChatManager.disconnect_active` (`core.py`
394-409): when a session is active, capture its recorded remote identity,
set the self-initiated flag and write the `/disconnect <self>` line if
requested, close the stream and clear slot and identity.  The disconnect
write is best-effort: its outcome `sendOk` is deliberately ignored by the
code (`try`/`except`/`pass`), so the result does not depend on it. -/
def disconnect_lock_section (st : ChatManager) (initiated_by_self : Bool)
    (sendOk : Bool) : ChatManager × List Eff × Option String :=
  match st.active_connection with
  | none => (st, [], none)
  | some conn =>
    let ri := st.active_remote_identity
    let st1 : ChatManager :=
      { st with
        user_initiated_disconnect := initiated_by_self || st.user_initiated_disconnect,
        active_connection := none,
        active_remote_identity := none }
    if initiated_by_self then
      (st1, [Eff.send conn ("/disconnect " ++ st.own_onion ++ "\n"), Eff.close conn], ri)
    else
      (st1, [Eff.close conn], ri)

/-- Post-lock section of `disconnect_active` (`core.py` 410-414): when
self-initiated, join the receiver thread and reset the flag.  The join is
modelled as the receiver completing within its timeout — the behaviour of
a blocking `recv` that fails immediately once its socket is closed. -/
def disconnect_post (st : ChatManager) (initiated_by_self : Bool) : ChatManager :=
  if initiated_by_self then { st with user_initiated_disconnect := false } else st

/-- `ChatManager.disconnect_active` (`core.py` 392-415) with no concurrent
receiver activity: the lock section followed by the post-lock section,
returning the final state, the effects and the captured remote identity. -/
def disconnect_active (st : ChatManager) (initiated_by_self : Bool) (sendOk : Bool) :
    ChatManager × List Eff × Option String :=
  let r := disconnect_lock_section st initiated_by_self sendOk
  (disconnect_post r.1 initiated_by_self, r.2.1, r.2.2)

/-- Self-initiated `disconnect_active` on a live session whose receive loop
is blocked in `recv`: closing the socket makes that read fail, so the
receiver's teardown section runs before the join in the post-lock section
returns.  Result: final state, the disconnect call's own effects, the
receiver teardown's effects, and the identity returned to the caller. -/
def disconnect_with_receiver (st : ChatManager) (sendOk : Bool) :
    ChatManager × List Eff × List Eff × Option String :=
  let r := disconnect_lock_section st true sendOk
  let t := receiver_teardown r.1
  (disconnect_post t.1 true, r.2.1, t.2, r.2.2)

/-- Slot/identity coherence: an empty active-connection slot implies an
empty recorded remote identity. -/
def state_inv (st : ChatManager) : Prop :=
  st.active_connection = none → st.active_remote_identity = none

/-- Program counter of one outbound `outgoing_connect` call, split at the
code's lock boundaries (`core.py` 429-459): the self check (430-432), the
lock-protected already-active check (433-436), the unlocked dial (437-441),
the lock-protected slot install (443-445), the unlocked `/init` write with
its rollback (446-454), and the lock-protected identity store (455-459). -/
inductive OutPhase
  | atSelfCheck
  | atActiveCheck
  | atDial
  | atInstall (conn : Nat)
  | atSendInit (conn : Nat)
  | atSetIdentity (conn : Nat)
  | outDone
  deriving Repr, DecidableEq

/-- Program counter of one inbound handler thread
(`_handle_incoming_target`): the whole lock-protected decision block
(`core.py` 319-337) is one atomic step; the post-lock handshake read plus
identity store (339-353) is another. -/
inductive InPhase
  | atDecision (conn : Nat)
  | atHandshake (conn : Nat)
  | inDone
  deriving Repr, DecidableEq

/-- Interleaving state for one outbound call racing one inbound handler:
the shared manager state, the outbound call's arguments and program
counter, the inbound handler's program counter, and the accumulated
effect trace. -/
structure Sys where
  mgr : ChatManager
  outAddr : String
  outAnon : Bool
  outPh : OutPhase
  inPh : InPhase
  trace : List Eff
  deriving Repr, DecidableEq

/-- Scheduler choice: which thread takes its next step, together with the
outcome of any external I/O that step performs. -/
inductive Choice
  | outSelfCheck
  | outActiveCheck
  | outDialOk (conn : Nat)
  | outDialFail
  | outInstall
  | outSendInitOk
  | outSendInitFail
  | outSetIdentity
  | inDecision (r : RecvResult) (rejectSendOk : Bool)
  | inHandshake (r : RecvResult)
  deriving Repr, DecidableEq

/-- One interleaving step; `none` when the chosen thread is not at the
corresponding program point.  Each step is one lock-protected block or one
unlocked I/O action of `core.py`, so the mutex's serialization of the lock
blocks is represented exactly. -/
def sysStep (s : Sys) (c : Choice) : Option Sys :=
  match c, s.outPh, s.inPh with
  | Choice.outSelfCheck, OutPhase.atSelfCheck, _ =>
    if s.outAddr = s.mgr.own_onion then
      some { s with outPh := OutPhase.outDone,
                    trace := s.trace ++ [Eff.print "info> Error: Cannot connect to yourself."] }
    else
      some { s with outPh := OutPhase.atActiveCheck }
  | Choice.outActiveCheck, OutPhase.atActiveCheck, _ =>
    if s.mgr.active_connection.isSome then
      some { s with outPh := OutPhase.outDone,
                    trace := s.trace ++ [Eff.print "info> already connected"] }
    else
      some { s with outPh := OutPhase.atDial }
  | Choice.outDialOk conn, OutPhase.atDial, _ =>
    some { s with outPh := OutPhase.atInstall conn,
                  trace := s.trace ++ [Eff.dial s.outAddr] }
  | Choice.outDialFail, OutPhase.atDial, _ =>
    some { s with outPh := OutPhase.outDone,
                  trace := s.trace ++ [Eff.dial s.outAddr, Eff.print "info> rejected",
                                       Eff.logEvent "out" "rejected" (some s.outAddr)] }
  | Choice.outInstall, OutPhase.atInstall conn, _ =>
    some { s with
      mgr := { s.mgr with active_connection := some conn,
                          user_initiated_disconnect := false },
      outPh := OutPhase.atSendInit conn }
  | Choice.outSendInitOk, OutPhase.atSendInit conn, _ =>
    some { s with
      outPh := OutPhase.atSetIdentity conn,
      trace := s.trace ++
        [Eff.send conn
          ("/init " ++ (if s.outAnon then "anonymous" else s.mgr.own_onion) ++ "\n")] }
  | Choice.outSendInitFail, OutPhase.atSendInit conn, _ =>
    some { s with
      mgr := { s.mgr with active_connection := none },
      outPh := OutPhase.outDone,
      trace := s.trace ++
        [Eff.send conn
          ("/init " ++ (if s.outAnon then "anonymous" else s.mgr.own_onion) ++ "\n"),
         Eff.print "info> rejected", Eff.logEvent "out" "rejected" (some s.outAddr)] }
  | Choice.outSetIdentity, OutPhase.atSetIdentity conn, _ =>
    some { s with
      mgr := { s.mgr with active_remote_identity := some s.outAddr },
      outPh := OutPhase.outDone,
      trace := s.trace ++ [Eff.print ("info> connected with " ++ s.outAddr),
                           Eff.logEvent "out" "connected" (some s.outAddr),
                           Eff.startReceiver],
      outAnon := s.outAnon }
  | Choice.inDecision r rejectSendOk, _, InPhase.atDecision conn =>
    if s.mgr.active_connection.isSome then
      some { s with
        inPh := InPhase.inDone,
        trace := s.trace ++
          (if rejectSendOk then
            [Eff.recv conn, Eff.send conn ("/reject " ++ s.mgr.own_onion ++ "\n"),
             Eff.print ("info> " ++ claimed_identity r ++ " incoming - rejected"),
             Eff.logEvent "in" "rejected" (some (claimed_identity r)), Eff.close conn]
          else
            [Eff.recv conn, Eff.send conn ("/reject " ++ s.mgr.own_onion ++ "\n"),
             Eff.close conn]) }
    else
      some { s with
        mgr := { s.mgr with active_connection := some conn,
                            user_initiated_disconnect := false },
        inPh := InPhase.atHandshake conn }
  | Choice.inHandshake r, _, InPhase.atHandshake conn =>
    some { s with
      mgr := { s.mgr with active_remote_identity := some (inbound_identity r) },
      inPh := InPhase.inDone,
      trace := s.trace ++ [Eff.recv conn,
                           Eff.print ("info> connected with " ++ inbound_identity r),
                           Eff.logEvent "in" "connected" (some (inbound_identity r)),
                           Eff.startReceiver] }
  | _, _, _ => none

/-- Run a schedule of interleaving choices from a system state; `none` when
some choice is not enabled. -/
def sysRun : Sys → List Choice → Option Sys
  | s, [] => some s
  | s, c :: cs =>
    match sysStep s c with
    | none => none
    | some s' => sysRun s' cs

/-- Initial state for the race: an idle manager with address `self.onion`,
an outbound call to `peer.onion` about to start, and one inbound handler
(stream id 1) about to take its lock-protected decision. -/
def raceInit : Sys :=
  { mgr := { own_onion := "self.onion", active_connection := none,
             active_remote_identity := none, user_initiated_disconnect := false },
    outAddr := "peer.onion", outAnon := false,
    outPh := OutPhase.atSelfCheck, inPh := InPhase.atDecision 1, trace := [] }

/-- Interleaving that exhibits the race: the outbound call passes its only
already-active check, the inbound handler then claims the slot and
completes its handshake (identity `peerB.onion`), and finally the dial
returns successfully with stream id 2. -/
def raceSchedule : List Choice :=
  [Choice.outSelfCheck, Choice.outActiveCheck,
   Choice.inDecision (RecvResult.ok "x") true,
   Choice.inHandshake (RecvResult.ok "/init peerB.onion\n"),
   Choice.outDialOk 2]

/-- Claim C2: connecting to the endpoint's own published address, for every
value of the anonymous flag and every environment outcome, performs no
dial, installs no session, changes no manager state, writes no event-log
record, and only reports the self-connect error to the caller (`core.py`
430-432). -/
theorem C2_self_connect_guard (st : ChatManager) (anonymous : Bool)
    (dialResult : Option Nat) (sendOk : Bool) :
    outgoing_connect st st.own_onion anonymous dialResult sendOk =
      (st, [Eff.print "info> Error: Cannot connect to yourself."]) := by
  simp [outgoing_connect]

/-- Claim C8: a failed write in `send_message` on an active session reports
a non-fatal send error and tears nothing down: the state is unchanged (the
session stays installed), no stream is closed and no event is logged
(`core.py` 417-423). -/
theorem C8_send_failure (st : ChatManager) (msg : String) (conn : Nat)
    (hact : st.active_connection = some conn) :
    send_message st msg false =
      (st, [Eff.send conn (msg ++ "\n"), Eff.print "info> Error sending message."]) ∧
    is_connected (send_message st msg false).1 = true ∧
    (∀ k, Eff.close k ∉ (send_message st msg false).2) ∧
    (∀ dir stat i, Eff.logEvent dir stat i ∉ (send_message st msg false).2) := by
  refine ⟨by simp [send_message, hact], ?_, ?_, ?_⟩
  · simp [send_message, hact, is_connected]
  · intro k
    simp [send_message, hact]
  · intro dir stat i
    simp [send_message, hact]

/-- Claim C8 witness: concrete failed send on an active session. -/
theorem C8_send_failure_witness :
    send_message
        { own_onion := "a.onion", active_connection := some 1,
          active_remote_identity := some "b.onion",
          user_initiated_disconnect := false } "hi" false =
      ({ own_onion := "a.onion", active_connection := some 1,
         active_remote_identity := some "b.onion",
         user_initiated_disconnect := false },
       [Eff.send 1 "hi\n", Eff.print "info> Error sending message."]) :=
  (C8_send_failure _ "hi" 1 rfl).1

/-- Claim C9: `send_message` with no active session is a silent no-op:
nothing is written, nothing is reported, the state is unchanged
(`core.py` 418-419: the body runs only when `active_connection` is set). -/
theorem C9_send_no_session (st : ChatManager) (msg : String) (sendOk : Bool)
    (hidle : st.active_connection = none) :
    send_message st msg sendOk = (st, []) := by
  simp [send_message, hidle]

/-- Claim C9 witness: concrete send with no session installed. -/
theorem C9_send_no_session_witness :
    send_message
        { own_onion := "a.onion", active_connection := none,
          active_remote_identity := none,
          user_initiated_disconnect := false } "hi" true =
      ({ own_onion := "a.onion", active_connection := none,
         active_remote_identity := none,
         user_initiated_disconnect := false }, []) :=
  C9_send_no_session _ "hi" true rfl

/-- Claim C3: past the self-connect and already-active guards,
`outgoing_connect` (a) on dial failure reports rejected, appends an
`(out, rejected, dialed address)` event and leaves the state unchanged, so
no session exists; (b) on handshake-write failure reports rejected, appends
the same event and rolls the claimed slot back, so no session is left
installed; (c) when both succeed, installs the session with remote identity
equal to the dialed address, appends `(out, connected, dialed address)` and
starts the receive loop (`core.py` 437-459). -/
theorem C3_outgoing_connect_outcomes (st : ChatManager) (onion : String)
    (anonymous : Bool) (dialResult : Option Nat) (sendOk : Bool)
    (hself : onion ≠ st.own_onion) (hidle : st.active_connection = none) :
    (dialResult = none →
      outgoing_connect st onion anonymous dialResult sendOk =
        (st, [Eff.dial onion, Eff.print "info> rejected",
              Eff.logEvent "out" "rejected" (some onion)])) ∧
    (∀ conn, dialResult = some conn → sendOk = false →
      (outgoing_connect st onion anonymous dialResult sendOk).1.active_connection = none ∧
      (outgoing_connect st onion anonymous dialResult sendOk).1.active_remote_identity =
        st.active_remote_identity ∧
      (outgoing_connect st onion anonymous dialResult sendOk).2 =
        [Eff.dial onion,
         Eff.send conn ("/init " ++ (if anonymous then "anonymous" else st.own_onion) ++ "\n"),
         Eff.print "info> rejected", Eff.logEvent "out" "rejected" (some onion)]) ∧
    (∀ conn, dialResult = some conn → sendOk = true →
      (outgoing_connect st onion anonymous dialResult sendOk).1.active_connection = some conn ∧
      (outgoing_connect st onion anonymous dialResult sendOk).1.active_remote_identity =
        some onion ∧
      (outgoing_connect st onion anonymous dialResult sendOk).2 =
        [Eff.dial onion,
         Eff.send conn ("/init " ++ (if anonymous then "anonymous" else st.own_onion) ++ "\n"),
         Eff.print ("info> connected with " ++ onion),
         Eff.logEvent "out" "connected" (some onion), Eff.startReceiver]) := by
  refine ⟨?_, ?_, ?_⟩
  · intro h
    subst h
    simp [outgoing_connect, hself, hidle]
  · intro conn h hs
    subst h
    subst hs
    refine ⟨?_, ?_, ?_⟩ <;> simp [outgoing_connect, hself, hidle]
  · intro conn h hs
    subst h
    subst hs
    refine ⟨?_, ?_, ?_⟩ <;> simp [outgoing_connect, hself, hidle]

/-- Claim C3 witness: a concrete successful outbound connect installs the
dialed session. -/
theorem C3_outgoing_connect_witness :
    (outgoing_connect
        { own_onion := "a.onion", active_connection := none,
          active_remote_identity := none, user_initiated_disconnect := false }
        "b.onion" false (some 1) true).1.active_connection = some 1 :=
  ((C3_outgoing_connect_outcomes _ "b.onion" false (some 1) true
      (by decide) rfl).2.2 1 rfl rfl).1

/-- Claim C4: with a session already active, an inbound stream is rejected
inside the lock-protected decision block: one handshake read is attempted
(the claimed identity defaults to `anonymous` on timeout, empty read or
decode failure), exactly one line `/reject <self_identity>` is written
back, the stream is closed, an `(in, rejected, claimed identity)` event is
appended, and the manager state — hence the original active session — is
unchanged (`core.py` 319-335).  The reject-line write is modelled as
succeeding (on a write failure the code still closes the stream but skips
the console message and the event record). -/
theorem C4_reject_while_busy (st : ChatManager) (conn c : Nat)
    (recv1 : RecvResult) (hbusy : st.active_connection = some c) :
    handle_incoming_target st conn recv1 true =
      (st, [Eff.recv conn, Eff.send conn ("/reject " ++ st.own_onion ++ "\n"),
            Eff.print ("info> " ++ claimed_identity recv1 ++ " incoming - rejected"),
            Eff.logEvent "in" "rejected" (some (claimed_identity recv1)),
            Eff.close conn]) ∧
    (handle_incoming_target st conn recv1 true).1.active_connection = some c ∧
    claimed_identity RecvResult.empty = "anonymous" ∧
    claimed_identity RecvResult.err = "anonymous" := by
  refine ⟨?_, ?_, rfl, rfl⟩ <;> simp [handle_incoming_target, hbusy]

/-- Claim C4 witness: concrete rejection of a second inbound stream. -/
theorem C4_reject_while_busy_witness :
    handle_incoming_target
        { own_onion := "a.onion", active_connection := some 1,
          active_remote_identity := some "b.onion",
          user_initiated_disconnect := false } 2 (RecvResult.ok "c.onion\n") true =
      ({ own_onion := "a.onion", active_connection := some 1,
         active_remote_identity := some "b.onion",
         user_initiated_disconnect := false },
       [Eff.recv 2, Eff.send 2 ("/reject " ++ "a.onion" ++ "\n"),
        Eff.print ("info> " ++ claimed_identity (RecvResult.ok "c.onion\n") ++
          " incoming - rejected"),
        Eff.logEvent "in" "rejected" (some (claimed_identity (RecvResult.ok "c.onion\n"))),
        Eff.close 2]) :=
  (C4_reject_while_busy _ 2 1 (RecvResult.ok "c.onion\n") rfl).1

/-- Claim C5 counterexample: the handshake line `/init a b` does not match
`/init <identity>` (the codec grammar's identity is `1*VCHAR`, with no
embedded whitespace), i.e. it is malformed, yet the code records remote
identity `a b` instead of the claimed default `anonymous`. -/
theorem C5_handshake_counterexample :
    (handle_incoming_target
        { own_onion := "s.onion", active_connection := none,
          active_remote_identity := none, user_initiated_disconnect := false }
        7 (RecvResult.ok "/init a b\n") true).1.active_remote_identity = some "a b" ∧
    ("a b" : String) ≠ "anonymous" := by
  refine ⟨by decide, by decide⟩

/-- Claim C5 (amended): for every inbound stream accepted while no session
is active, a session is always created (the slot holds the new stream, an
`(in, connected, remote identity)` event is appended and the receive loop
is started), never dropped; the remote identity is derived only from a
handshake chunk beginning with `/init ` — it is the rest of that chunk with
surrounding whitespace stripped, which for a well-formed `/init <identity>`
line is that identity — and defaults to `anonymous` on timeout, empty read,
decode failure, or any chunk not beginning with `/init `
(`core.py` 336-353). -/
theorem C5_inbound_session (st : ChatManager) (conn : Nat) (recv1 : RecvResult)
    (rejectSendOk : Bool) (hidle : st.active_connection = none) :
    (handle_incoming_target st conn recv1 rejectSendOk).1.active_connection = some conn ∧
    (handle_incoming_target st conn recv1 rejectSendOk).1.active_remote_identity =
      some (inbound_identity recv1) ∧
    (handle_incoming_target st conn recv1 rejectSendOk).2 =
      [Eff.recv conn, Eff.print ("info> connected with " ++ inbound_identity recv1),
       Eff.logEvent "in" "connected" (some (inbound_identity recv1)),
       Eff.startReceiver] ∧
    inbound_identity RecvResult.empty = "anonymous" ∧
    inbound_identity RecvResult.err = "anonymous" ∧
    (∀ d, py_startswith d "/init " = false →
      inbound_identity (RecvResult.ok d) = "anonymous") ∧
    (∀ d, py_startswith d "/init " = true →
      inbound_identity (RecvResult.ok d) = py_strip (py_drop 6 (py_strip d))) := by
  refine ⟨?_, ?_, ?_, rfl, rfl, ?_, ?_⟩
  · simp [handle_incoming_target, hidle]
  · simp [handle_incoming_target, hidle]
  · simp [handle_incoming_target, hidle]
  · intro d h
    simp [inbound_identity, h]
  · intro d h
    simp [inbound_identity, h]

/-- Claim C5 witness: a silent inbound stream (5s timeout) still yields a
session, with identity `anonymous`. -/
theorem C5_inbound_session_witness :
    (handle_incoming_target
        { own_onion := "s.onion", active_connection := none,
          active_remote_identity := none, user_initiated_disconnect := false }
        3 RecvResult.err true).1.active_remote_identity =
      some (inbound_identity RecvResult.err) :=
  (C5_inbound_session _ 3 RecvResult.err true rfl).2.1

/-- Claim C6: `disconnect_active` returns the active session's recorded
remote identity, or `none` when no session is active; a self-initiated
disconnect of a live session sets the self-initiated flag, best-effort
writes the `/disconnect <self_identity>` line (the result is independent of
the write's outcome), closes the stream and clears the slot, after which
`is_connected` is false, and the receive loop's teardown — which runs while
the flag is still set, before the post-join reset — emits no duplicate
disconnected notification and no duplicate `(in, disconnected)` event
(`core.py` 392-415 and 384-390). -/
theorem C6_disconnect_symmetry (st : ChatManager) (conn : Nat)
    (sendOk sendOk2 : Bool) (hact : st.active_connection = some conn) :
    (disconnect_with_receiver st sendOk).2.2.2 = st.active_remote_identity ∧
    (disconnect_with_receiver st sendOk).1.active_connection = none ∧
    is_connected (disconnect_with_receiver st sendOk).1 = false ∧
    (disconnect_with_receiver st sendOk).1.user_initiated_disconnect = false ∧
    (disconnect_with_receiver st sendOk).2.1 =
      [Eff.send conn ("/disconnect " ++ st.own_onion ++ "\n"), Eff.close conn] ∧
    (disconnect_with_receiver st sendOk).2.2.1 = [] ∧
    disconnect_with_receiver st sendOk = disconnect_with_receiver st sendOk2 ∧
    (∀ st' : ChatManager, st'.active_connection = none →
      (disconnect_active st' true sendOk).2.2 = none) := by
  refine ⟨?_, ?_, ?_, ?_, ?_, ?_, rfl, ?_⟩
  · simp [disconnect_with_receiver, disconnect_lock_section, receiver_teardown,
          disconnect_post, hact]
  · simp [disconnect_with_receiver, disconnect_lock_section, receiver_teardown,
          disconnect_post, hact]
  · simp [disconnect_with_receiver, disconnect_lock_section, receiver_teardown,
          disconnect_post, hact, is_connected]
  · simp [disconnect_with_receiver, disconnect_lock_section, receiver_teardown,
          disconnect_post, hact]
  · simp [disconnect_with_receiver, disconnect_lock_section, receiver_teardown,
          disconnect_post, hact]
  · simp [disconnect_with_receiver, disconnect_lock_section, receiver_teardown,
          disconnect_post, hact]
  · intro st' h
    simp [disconnect_active, disconnect_lock_section, disconnect_post, h]

/-- Claim C6 witness: concrete self-initiated disconnect of a live
session. -/
theorem C6_disconnect_symmetry_witness :
    (disconnect_with_receiver
        { own_onion := "a.onion", active_connection := some 1,
          active_remote_identity := some "b.onion",
          user_initiated_disconnect := false } true).2.2.2 = some "b.onion" ∧
    (disconnect_with_receiver
        { own_onion := "a.onion", active_connection := some 1,
          active_remote_identity := some "b.onion",
          user_initiated_disconnect := false } true).2.2.1 = [] :=
  ⟨(C6_disconnect_symmetry _ 1 true false rfl).1,
   (C6_disconnect_symmetry _ 1 true false rfl).2.2.2.2.2.1⟩

/-- Claim C7 counterexample: the chat line ` hi ` (arriving as the chunk
`" hi \n"`) is not forwarded verbatim — the receive loop delivers the
stripped text `hi` (`core.py` 375 strips before dispatching). -/
theorem C7_forward_counterexample :
    receiver_loop [ReadItem.chunk " hi \n"] = [Eff.print "other> hi"] ∧
    (" hi " : String) ≠ "hi" := by
  refine ⟨by decide, by decide⟩

/-- Claim C7 (amended): the receive loop first strips each received line of
leading and trailing whitespace and then applies the per-line rules to the
stripped line: a zero-length read, a read error, or a stripped line
starting with `/disconnect ` terminates the loop; a stripped line starting
with `/reject ` is a no-op; every other line is forwarded to the caller's
message sink in stripped form (otherwise unchanged), tagged as a remote
chat message, and never written to the event log (the loop emits only
console messages).  On termination the teardown clears the session slot and
identity and emits a disconnected notification plus an
`(in, disconnected)` event unless the disconnect was self-initiated, in
which case both are suppressed (`core.py` 366-390). -/
theorem C7_receiver_rules (st : ChatManager) (d : String)
    (items : List ReadItem) :
    receiver_loop (ReadItem.closed :: items) = [] ∧
    receiver_loop (ReadItem.errRead :: items) = [] ∧
    (py_startswith (py_strip d) "/disconnect " = true →
      receiver_loop (ReadItem.chunk d :: items) = []) ∧
    (py_startswith (py_strip d) "/disconnect " = false →
      py_startswith (py_strip d) "/reject " = true →
      receiver_loop (ReadItem.chunk d :: items) = receiver_loop items) ∧
    (py_startswith (py_strip d) "/disconnect " = false →
      py_startswith (py_strip d) "/reject " = false →
      receiver_loop (ReadItem.chunk d :: items) =
        Eff.print ("other> " ++ py_strip d) :: receiver_loop items) ∧
    (∀ e ∈ receiver_loop items, ∃ m, e = Eff.print m) ∧
    (receiver_teardown st).1.active_connection = none ∧
    (receiver_teardown st).1.active_remote_identity = none ∧
    (st.user_initiated_disconnect = true → (receiver_teardown st).2 = []) ∧
    (st.user_initiated_disconnect = false →
      (receiver_teardown st).2 =
        [Eff.print "info> disconnected",
         Eff.logEvent "in" "disconnected" st.active_remote_identity]) := by
  refine ⟨rfl, rfl, ?_, ?_, ?_, ?_, ?_, ?_, ?_, ?_⟩
  · intro h
    simp [receiver_loop, h]
  · intro h1 h2
    simp [receiver_loop, h1, h2]
  · intro h1 h2
    simp [receiver_loop, h1, h2]
  · induction items with
    | nil =>
      intro e he
      simp [receiver_loop] at he
    | cons it rest ih =>
      intro e he
      cases it with
      | closed => simp [receiver_loop] at he
      | errRead => simp [receiver_loop] at he
      | chunk d2 =>
        by_cases h1 : py_startswith (py_strip d2) "/disconnect "
        · simp [receiver_loop, h1] at he
        · by_cases h2 : py_startswith (py_strip d2) "/reject "
          · simp [receiver_loop, h1, h2] at he
            exact ih e he
          · simp [receiver_loop, h1, h2] at he
            rcases he with h | h
            · exact ⟨_, h⟩
            · exact ih e h
  · cases h : st.user_initiated_disconnect <;> simp [receiver_teardown, h]
  · cases h : st.user_initiated_disconnect <;> simp [receiver_teardown, h]
  · intro h
    simp [receiver_teardown, h]
  · intro h
    simp [receiver_teardown, h]

/-- Claim C7 witness: a concrete chat line is forwarded in stripped form,
and a receiver whose manager carries the self-initiated flag emits
nothing on teardown. -/
theorem C7_receiver_rules_witness :
    receiver_loop [ReadItem.chunk "hello\n"] =
      Eff.print ("other> " ++ py_strip "hello\n") :: receiver_loop [] ∧
    (receiver_teardown
        { own_onion := "a.onion", active_connection := some 1,
          active_remote_identity := some "b.onion",
          user_initiated_disconnect := true }).2 = [] :=
  ⟨(C7_receiver_rules
      { own_onion := "a.onion", active_connection := some 1,
        active_remote_identity := some "b.onion",
        user_initiated_disconnect := true } "hello\n" []).2.2.2.2.1
      (by decide) (by decide),
   (C7_receiver_rules
      { own_onion := "a.onion", active_connection := some 1,
        active_remote_identity := some "b.onion",
        user_initiated_disconnect := true } "hello\n" []).2.2.2.2.2.2.2.2.1 rfl⟩

/-- Claim C10: every operation, run as a whole from a state where an empty
slot implies an empty recorded identity, ends in such a state again; in
particular both teardown paths (the receive loop's close detection and
`disconnect_active`) clear the connection and the remote identity
together. -/
theorem C10_slot_identity_coherence (st : ChatManager) (hinv : state_inv st) :
    (∀ onion anonymous dialResult sendOk,
      state_inv (outgoing_connect st onion anonymous dialResult sendOk).1) ∧
    (∀ conn recv1 rejectSendOk,
      state_inv (handle_incoming_target st conn recv1 rejectSendOk).1) ∧
    (∀ msg sendOk, state_inv (send_message st msg sendOk).1) ∧
    (∀ b sendOk, state_inv (disconnect_active st b sendOk).1) ∧
    (∀ items, state_inv (receiver_target st items).1) := by
  refine ⟨?_, ?_, ?_, ?_, ?_⟩
  · intro onion anonymous dialResult sendOk
    rcases hc : st.active_connection with _ | c
    · have hid : st.active_remote_identity = none := hinv hc
      rcases dialResult with _ | conn <;>
        by_cases ha : onion = st.own_onion <;>
        by_cases hs : sendOk <;>
        simp [outgoing_connect, state_inv, hc, hid, ha, hs]
    · by_cases ha : onion = st.own_onion <;>
        simp [outgoing_connect, state_inv, hc, ha, hinv]
  · intro conn recv1 rejectSendOk
    rcases hc : st.active_connection with _ | c <;>
      by_cases hr : rejectSendOk <;>
      simp [handle_incoming_target, state_inv, hc, hr, hinv]
  · intro msg sendOk
    rcases hc : st.active_connection with _ | c
    · have hid := hinv hc
      by_cases hs : sendOk <;>
        simp [send_message, state_inv, hc, hs, hid]
    · by_cases hs : sendOk <;>
        simp [send_message, state_inv, hc, hs]
  · intro b sendOk
    rcases hc : st.active_connection with _ | c
    · have hid := hinv hc
      by_cases hb : b <;>
        simp [disconnect_active, disconnect_lock_section, disconnect_post,
              state_inv, hc, hb, hid]
    · by_cases hb : b <;>
        simp [disconnect_active, disconnect_lock_section, disconnect_post,
              state_inv, hc, hb]
  · intro items
    rcases hc : st.active_connection with _ | c
    · have hid := hinv hc
      simp [receiver_target, state_inv, hc, hid]
    · cases h : st.user_initiated_disconnect <;>
        simp [receiver_target, receiver_teardown, state_inv, hc, h]

/-- Claim C10 witness: coherence holds after a concrete operation from a
coherent state. -/
theorem C10_slot_identity_coherence_witness :
    state_inv (send_message
        { own_onion := "a.onion", active_connection := none,
          active_remote_identity := none,
          user_initiated_disconnect := false } "m" true).1 :=
  (C10_slot_identity_coherence _ (fun _ => rfl)).2.2.1 "m" true

/-- Claim C1 fails on the code: from an idle manager, the outbound connect
passes its only already-active check and starts the (unlocked, up to 10s)
dial; an inbound handler then claims the slot and completes its handshake,
so a session with stream 1 and identity `peerB.onion` is fully active; when
the dial returns, the install step of `outgoing_connect` (`core.py` line
444) stores its new stream 2 into `active_connection` without re-checking
the slot, overwriting the live inbound session — a second concurrent claim
installs a second session instead of resolving to rejection. -/
theorem C1_outbound_install_overwrites_active_session :
    ((sysRun raceInit raceSchedule).map fun s => s.mgr.active_connection) =
      some (some 1) ∧
    ((sysRun raceInit raceSchedule).map fun s => s.mgr.active_remote_identity) =
      some (some "peerB.onion") ∧
    ((sysRun raceInit (raceSchedule ++ [Choice.outInstall])).map
        fun s => s.mgr.active_connection) = some (some 2) := by
  refine ⟨by decide, by decide, by decide⟩
